import Mathlib

/-!
Verification of the sqlite-opus query engine (src/sqlite_opus).

Strings are modelled as `List Char`; Python string methods (`strip`,
`rstrip`, `upper`, `startswith`, substring containment, `isalnum`) are
embedded on the ASCII fragment that the claims exercise.  The regular
expressions used by the source are embedded as explicit scanners over
character lists.  The sqlite3 engine is an abstract parameter
`Db → query → Except error (Db × CursorRes)`, mirroring the cursor
interface (`rows`, `description`, `rowcount`) the source consumes.
-/

/-- The characters Python `str.strip()` removes (ASCII whitespace). -/
def isPySpace (c : Char) : Bool :=
  c == ' ' || c == '\t' || c == '\n' || c == '\r' || c == '\x0b' || c == '\x0c'

/-- ASCII digit, the `\d` class of the source's regular expressions. -/
def isAsciiDigit (c : Char) : Bool := '0' ≤ c && c ≤ '9'

/-- The `\w` class of the source's regular expressions (ASCII fragment). -/
def isWordChar (c : Char) : Bool :=
  isAsciiDigit c || ('A' ≤ c && c ≤ 'Z') || ('a' ≤ c && c ≤ 'z') || c == '_'

/-- ASCII letter or digit, the fragment of Python `str.isalnum` the claims use. -/
def isAsciiAlnumChar (c : Char) : Bool :=
  isAsciiDigit c || ('A' ≤ c && c ≤ 'Z') || ('a' ≤ c && c ≤ 'z')

/-- Python `str.upper()` on one character (ASCII fragment). -/
def toUpperChar (c : Char) : Char :=
  if 'a' ≤ c && c ≤ 'z' then Char.ofNat (c.toNat - 32) else c

/-- Convert a Lean string literal to the character-list representation. -/
def chars (s : String) : List Char := s.data

/-- Python `str.upper()`. -/
def upperList (l : List Char) : List Char := l.map toUpperChar

/-- Python `str.lstrip()`. -/
def pyLStrip (l : List Char) : List Char := l.dropWhile isPySpace

/-- Python `str.rstrip()`. -/
def pyRStrip (l : List Char) : List Char := (l.reverse.dropWhile isPySpace).reverse

/-- Python `str.strip()`. -/
def pyStrip (l : List Char) : List Char := pyRStrip (pyLStrip l)

/-- Python `str.rstrip(";")`: removes every trailing semicolon. -/
def pyRStripSemis (l : List Char) : List Char :=
  (l.reverse.dropWhile (fun c => c == ';')).reverse

/-- Python `str.startswith(pat)` (pattern first, text second). -/
def pyStartsWith : List Char → List Char → Bool
  | [], _ => true
  | _ :: _, [] => false
  | p :: ps, c :: cs => p == c && pyStartsWith ps cs

/-- Python `pat in text` substring containment. -/
def containsSub (pat : List Char) : List Char → Bool
  | [] => pyStartsWith pat []
  | c :: cs => pyStartsWith pat (c :: cs) || containsSub pat cs

/-- Classifies a query as a read: `query.strip().upper().startswith("SELECT")`. -/
def isSelectText (q : List Char) : Bool :=
  pyStartsWith (chars "SELECT") (upperList (pyStrip q))

/-- A regex word boundary before a word character, given the previous character. -/
def boundaryOk : Option Char → Bool
  | none => true
  | some c => !isWordChar c

/-- What follows the leading keyword in each DML pattern of `contains_dml`. -/
inductive DmlTail where
  | kw2 (w : List Char)
  | wordChar
  | spaceOnly
deriving DecidableEq

/-- Matches `\s+` followed by the tail requirement of a DML pattern. -/
def matchSpacesThen (t : DmlTail) (l : List Char) : Bool :=
  !(l.takeWhile isPySpace).isEmpty &&
    (match t with
     | .spaceOnly => true
     | .wordChar =>
       (match l.dropWhile isPySpace with
        | [] => false
        | c :: _ => isWordChar c)
     | .kw2 w =>
       pyStartsWith w (l.dropWhile isPySpace) &&
         (match (l.dropWhile isPySpace).drop w.length with
          | [] => true
          | c :: _ => !isWordChar c))

/-- Matches one DML pattern `\bW1\s+<tail>` at the current position. -/
def dmlHere (w1 : List Char) (t : DmlTail) (l : List Char) : Bool :=
  pyStartsWith w1 l && matchSpacesThen t (l.drop w1.length)

/-- `re.search` for one DML pattern: tries every position, tracking the
previous character for the leading word boundary. -/
def searchDml (w1 : List Char) (t : DmlTail) : Option Char → List Char → Bool
  | prev, [] => boundaryOk prev && dmlHere w1 t []
  | prev, c :: cs => (boundaryOk prev && dmlHere w1 t (c :: cs)) || searchDml w1 t (some c) cs

/-- The eight DML/DDL patterns of `contains_dml` (src/sqlite_opus/routes.py:199-208),
matched against the upper-cased text. -/
def dmlPatterns : List (List Char × DmlTail) :=
  [(chars "INSERT", .kw2 (chars "INTO")),
   (chars "UPDATE", .wordChar),
   (chars "DELETE", .kw2 (chars "FROM")),
   (chars "CREATE", .spaceOnly),
   (chars "TRUNCATE", .spaceOnly),
   (chars "REPLACE", .kw2 (chars "INTO")),
   (chars "DROP", .spaceOnly),
   (chars "ALTER", .spaceOnly)]

/-- `contains_dml` (src/sqlite_opus/routes.py:196-209): upper-cases the stripped
query and searches each pattern anywhere in the text. -/
def contains_dml (query : List Char) : Bool :=
  dmlPatterns.any (fun p => searchDml p.1 p.2 none (upperList (pyStrip query)))

/-- A regex word boundary after a word, given the rest of the text. -/
def boundaryAfter : List Char → Bool
  | [] => true
  | c :: _ => !isWordChar c

/-- Matches `\bW\b` at the current position (used for the spec's notion of a
standalone `LIMIT` token). -/
def tokenHere (w : List Char) (l : List Char) : Bool :=
  pyStartsWith w l && boundaryAfter (l.drop w.length)

/-- Searches `\bW\b` anywhere in the text. -/
def searchTok (w : List Char) : Option Char → List Char → Bool
  | prev, [] => boundaryOk prev && tokenHere w []
  | prev, c :: cs => (boundaryOk prev && tokenHere w (c :: cs)) || searchTok w (some c) cs

/-- Modelled from the spec: a case-insensitive `LIMIT` *token* (word-boundary
delimited) occurring anywhere in the text.  The source instead tests plain
substring containment; this definition is the spec's wording, kept for
comparison. -/
def hasLimitToken (q : List Char) : Bool :=
  searchTok (chars "LIMIT") none (upperList q)

/-- Last stage of one removal round: `r4` is the reversed text left after the
keyword; the regex's leading `\s+` demands at least one space here, and the
truncation point (leftmost match start, then `rstrip`) drops them all. -/
def stripAfterKeyword (r4 : List Char) : Option (List Char) :=
  if (r4.takeWhile isPySpace).isEmpty then none
  else some ((r4.dropWhile isPySpace).reverse)

/-- Keyword stage of one removal round: `r3` is the reversed text left after
the digits and the following whitespace; a case-insensitive `LIMIT` or
`OFFSET` must sit at its head (i.e. right before the digits). -/
def stripKeywordPart (r3 : List Char) : Option (List Char) :=
  if upperList (r3.take 5) = (chars "LIMIT").reverse then
    stripAfterKeyword (r3.drop 5)
  else if upperList (r3.take 6) = (chars "OFFSET").reverse then
    stripAfterKeyword (r3.drop 6)
  else none

/-- Whitespace stage of one removal round: the regex's `\s+` between keyword
and digits, scanned on the reversed text. -/
def stripSpacePart (r2 : List Char) : Option (List Char) :=
  if (r2.takeWhile isPySpace).isEmpty then none
  else stripKeywordPart (r2.dropWhile isPySpace)

/-- Digits stage of one removal round: the regex's `\d+`, scanned on the
reversed text after the trailing `\s*$` whitespace was skipped. -/
def stripDigitsPart (r1 : List Char) : Option (List Char) :=
  if (r1.takeWhile isAsciiDigit).isEmpty then none
  else stripSpacePart (r1.dropWhile isAsciiDigit)

/-- One round of the loop in `_strip_limit_offset`
(src/sqlite_opus/database.py:14-20): searches
`\s+(?:OFFSET\s+\d+|LIMIT\s+\d+)\s*$` and, on a match, truncates at the match
start and right-strips.  Implemented by scanning the reversed text through
the stages above; `none` means the regex does not match. -/
def stripOneTrailingClause (q : List Char) : Option (List Char) :=
  stripDigitsPart (q.reverse.dropWhile isPySpace)

/-- `_strip_limit_offset` (src/sqlite_opus/database.py:10-21):
`query.strip().rstrip(";").strip()`, then at most two rounds of trailing
`LIMIT n` / `OFFSET n` removal, stopping at the first round with no match. -/
def _strip_limit_offset (query : List Char) : List Char :=
  match stripOneTrailingClause (pyStrip (pyRStripSemis (pyStrip query))) with
  | none => pyStrip (pyRStripSemis (pyStrip query))
  | some q1 =>
    match stripOneTrailingClause q1 with
    | none => q1
    | some q2 => q2

/-- Python `str.rstrip` of a single trailing semicolon, as the claim's words
("a single trailing statement terminator") prescribe; the source's
`rstrip(";")` removes every trailing semicolon instead. -/
def rstripOneSemi (l : List Char) : List Char :=
  match l.reverse with
  | ';' :: rest => rest.reverse
  | _ => l

/-- Modelled from the spec: `strip_trailing_limit_offset` as the claim words
it — trim whitespace and a *single* trailing semicolon, then strip at most
two trailing clauses.  Kept for comparison with `_strip_limit_offset`. -/
def claimed_strip_limit_offset (query : List Char) : List Char :=
  match stripOneTrailingClause (pyStrip (rstripOneSemi (pyStrip query))) with
  | none => pyStrip (rstripOneSemi (pyStrip query))
  | some q1 =>
    match stripOneTrailingClause q1 with
    | none => q1
    | some q2 => q2

/-- The declarative reading of one removal round: the text decomposes as
`a ++ ws ++ kw ++ ws2 ++ ds ++ ws3` with `kw` a case-insensitive `LIMIT` or
`OFFSET` preceded by whitespace, `ds` nonempty digits preceded by whitespace,
and only whitespace after; the round yields `a` right-stripped. -/
def TrailingClause (q r : List Char) : Prop :=
  ∃ a ws kw ws2 ds ws3,
    q = a ++ ws ++ kw ++ ws2 ++ ds ++ ws3 ∧
    ws ≠ [] ∧ ws.all isPySpace = true ∧
    (upperList kw = chars "LIMIT" ∨ upperList kw = chars "OFFSET") ∧
    ws2 ≠ [] ∧ ws2.all isPySpace = true ∧
    ds ≠ [] ∧ ds.all isAsciiDigit = true ∧
    ws3.all isPySpace = true ∧
    r = pyRStrip a

/-- Python `value or ''` applied to an optional credential. -/
def orEmpty : Option (List Char) → List Char
  | none => []
  | some s => s

/-- The decision of `basic_auth_required` (src/sqlite_opus/routes.py:178-194):
`true` means the request reaches the wrapped view, `false` means the 401
challenge response is returned.  `req` is the request's basic-auth pair, or
`none` when absent. -/
def basic_auth_gate (auth_user auth_password : Option (List Char))
    (req : Option (List Char × List Char)) : Bool :=
  let username := orEmpty auth_user
  let password := orEmpty auth_password
  if username = [] && password = [] then true
  else
    match req with
    | none => false
    | some (u, p) => u = username && p = password

/-- Python `s.isalnum()` (ASCII fragment): nonempty and all alphanumeric. -/
def pyIsAlnum (l : List Char) : Bool := !l.isEmpty && l.all isAsciiAlnumChar

/-- Alphanumeric or underscore — the allow-list the spec describes for
identifiers on the interpolation fallback path. -/
def isAlnumUnderscore (c : Char) : Bool := isAsciiAlnumChar c || c == '_'

/-- `_safe_table_identifier` (src/sqlite_opus/database.py:204-211): rejects
empty/whitespace-only names, strips the name, and requires
`s.replace("_", "").isalnum()`. -/
def _safe_table_identifier (table_name : List Char) : Option (List Char) :=
  if table_name = [] || pyStrip table_name = [] then none
  else
    let s := pyStrip table_name
    if !pyIsAlnum (s.filter (fun c => c != '_')) then none
    else some s

/-- A cell value in a result row (the fragment of SQLite value types the
claims exercise). -/
inductive SqlVal where
  | intV (i : Int)
  | textV (s : List Char)
  | nullV
deriving DecidableEq

/-- What a sqlite3 cursor exposes after `execute`: the fetchable rows, the
`description` column names, and `cursor.rowcount`.  Per the sqlite3/DB-API
documentation, `rowcount` is the number of modified rows for row-modifying
statements and `-1` for `SELECT` and other statements. -/
structure CursorRes where
  rows : List (List SqlVal)
  cols : List (List Char)
  rowcount : Int
deriving DecidableEq

/-- The abstract sqlite3 engine: executing a statement either raises
(`Except.error` with the exception text) or yields the updated database and
the cursor state. -/
def Engine (Db : Type) := Db → List Char → Except (List Char) (Db × CursorRes)

/-- `PageMeta` mirrors the `pagination` dict built by
`execute_query_paginated`. -/
structure PageMeta where
  page : Int
  per_page : Int
  total_count : Int
  total_pages : Int
deriving DecidableEq

/-- The Query Result Envelope.  Python dicts omit keys on some paths; absent
keys are `none` / `[]` here.  Row dicts are modelled by the row's value list,
with the column names carried in `columns`. -/
structure Envelope where
  success : Bool
  error : Option (List Char)
  results : List (List SqlVal)
  columns : List (List Char)
  rowcount : Option Int
  pagination : Option PageMeta
deriving DecidableEq

/-- A failure envelope with empty results/columns and no rowcount. -/
def envFail (e : List Char) : Envelope :=
  { success := false, error := some e, results := [], columns := [],
    rowcount := none, pagination := none }

/-- `execute_query` (src/sqlite_opus/database.py:64-100).  The connection is
`none` when disconnected; on success the updated database is returned
(the commit of the non-SELECT branch is the persistence of `db2`). -/
def execute_query {Db : Type} (exec : Engine Db) (conn : Option Db)
    (query : List Char) : Option Db × Envelope :=
  match conn with
  | none => (none, envFail (chars "No database connection"))
  | some db =>
    match exec db query with
    | .error e => (some db, envFail e)
    | .ok (db2, cur) =>
      if isSelectText query then
        (some db2,
         { success := true, error := none, results := cur.rows,
           columns := cur.cols, rowcount := some cur.rowcount,
           pagination := none })
      else
        (some db2,
         { success := true, error := none, results := [], columns := [],
           rowcount := some cur.rowcount, pagination := none })

/-- `f"SELECT COUNT(*) FROM ({base_query}) AS _cnt"`
(src/sqlite_opus/database.py:129). -/
def countQueryOf (base : List Char) : List Char :=
  chars "SELECT COUNT(*) FROM (" ++ base ++ chars ") AS _cnt"

/-- `f"{base_query} LIMIT {limit} OFFSET {offset}"`
(src/sqlite_opus/database.py:137). -/
def dataQueryOf (base : List Char) (limit offset : Int) : List Char :=
  base ++ chars " LIMIT " ++ chars (toString limit) ++
    chars " OFFSET " ++ chars (toString offset)

/-- The `pagination` dict of `execute_query_paginated`
(src/sqlite_opus/database.py:122-147): `page` clamped to a minimum of 1,
`per_page` to `[1, max_results]`, and
`total_pages = (total_count + per_page - 1) // per_page` for a positive
count, else 0 (Python `//` is `Int.fdiv`). -/
def pageMetaOf (page per_page max_results total_count : Int) : PageMeta :=
  PageMeta.mk (max 1 page) (max 1 (min per_page max_results)) total_count
    (if total_count > 0 then
       Int.fdiv (total_count + max 1 (min per_page max_results) - 1)
         (max 1 (min per_page max_results))
     else 0)

/-- `execute_query_paginated` (src/sqlite_opus/database.py:102-163): strip the
query, fall back to `execute_query` for non-SELECT text, clamp `page` and
`per_page`, run the wrapped COUNT query, then the windowed data query, and
assemble the envelope with pagination metadata.  `fetchone()[0]` on a rowless
cursor, an empty row, or a non-integer count value raises; those paths
surface as failure envelopes like any other exception. -/
def execute_query_paginated {Db : Type} (exec : Engine Db) (conn : Option Db)
    (query : List Char) (page per_page max_results : Int) :
    Option Db × Envelope :=
  match conn with
  | none => (none, envFail (chars "No database connection"))
  | some db =>
    if !pyStartsWith (chars "SELECT") (upperList (pyStrip (pyRStripSemis (pyStrip query)))) then
      execute_query exec conn query
    else
      match exec db (countQueryOf (_strip_limit_offset (pyStrip (pyRStripSemis (pyStrip query))))) with
      | .error e => (some db, envFail e)
      | .ok (db1, cur1) =>
        match cur1.rows.head? with
        | none => (some db1, envFail (chars "TypeError"))
        | some row =>
          match row.head? with
          | none => (some db1, envFail (chars "IndexError"))
          | some (.textV _) => (some db1, envFail (chars "TypeError"))
          | some .nullV => (some db1, envFail (chars "TypeError"))
          | some (.intV tc) =>
            match exec db1 (dataQueryOf
                (_strip_limit_offset (pyStrip (pyRStripSemis (pyStrip query))))
                (max 1 (min per_page max_results))
                ((max 1 page - 1) * max 1 (min per_page max_results))) with
            | .error e => (some db1, envFail e)
            | .ok (db2, cur2) =>
              (some db2,
               { success := true, error := none, results := cur2.rows,
                 columns := cur2.cols,
                 rowcount := some (Int.ofNat cur2.rows.length),
                 pagination := some (pageMetaOf page per_page max_results tc) })

/-- The fixed denial message of the write-gate
(src/sqlite_opus/routes.py:105-109). -/
def dmlDenialMsg : List Char :=
  chars "DML queries (INSERT/UPDATE/DELETE/CREATE/TRUNCATE/REPLACE) are not allowed. Set config.allow_dml = True to enable."

/-- The default-LIMIT rewrite of the non-paginated path
(src/sqlite_opus/routes.py:126-129): for a SELECT with no `LIMIT` substring in
its upper-cased text, append `LIMIT max_query_results` after `rstrip(";")`. -/
def apply_default_limit (query : List Char) (max_query_results : Int) : List Char :=
  if isSelectText query then
    if containsSub (chars "LIMIT") (upperList query) then query
    else pyRStripSemis query ++ chars " LIMIT " ++ chars (toString max_query_results)
  else query

/-- `get_query_result` (src/sqlite_opus/routes.py:98-130): connection check,
empty-query check, write-gate, then either the paginated path (SELECT with a
valid page) or direct execution with the default-LIMIT rewrite.  `page` and
`per_page` are the request values (`none` for absent); `default_per_page`
models `config.query_results_per_page`. -/
def get_query_result {Db : Type} (exec : Engine Db) (allow_dml : Bool)
    (max_query_results default_per_page : Int) (conn : Option Db)
    (query : List Char) (page per_page : Option Int) :
    Option Db × Envelope :=
  match conn with
  | none => (none, envFail (chars "Not connected"))
  | some db =>
    if query = [] then (some db, envFail (chars "Query required"))
    else if contains_dml query && !allow_dml then
      (some db, envFail dmlDenialMsg)
    else
      match page with
      | some p =>
        if isSelectText query && decide (1 ≤ p) then
          let pp0 := match per_page with
            | none => default_per_page
            | some v => if v < 1 then default_per_page else v
          let pp := min pp0 max_query_results
          execute_query_paginated exec (some db) query p pp max_query_results
        else
          execute_query exec (some db) (apply_default_limit query max_query_results)
      | none =>
        execute_query exec (some db) (apply_default_limit query max_query_results)

/-- The `DatabaseManager` connection attributes
(src/sqlite_opus/database.py:31-35). -/
structure ManagerState (Db : Type) where
  current_db_path : Option (List Char)
  connection : Option Db

/-- `connect` (src/sqlite_opus/database.py:37-55): returns `false` without
touching the state when the path does not exist; otherwise closes any prior
handle, opens the new one and records the path (`openDb = none` models
`sqlite3.connect` raising; the attributes are unchanged then, though the prior
handle object has been closed — closedness of a handle is not observable in
this model). -/
def connect {Db : Type} (fsExists : List Char → Bool)
    (openDb : List Char → Option Db) (st : ManagerState Db)
    (db_path : List Char) : Bool × ManagerState Db :=
  if fsExists db_path then
    match openDb db_path with
    | some h => (true, { current_db_path := some db_path, connection := some h })
    | none => (false, st)
  else (false, st)

/-- One parsed column of `get_all_columns`
(src/sqlite_opus/database.py:231-237). -/
structure ColumnInfo where
  name : SqlVal
  type : SqlVal
  notnull : Bool
  dflt_value : SqlVal
  pk : Bool
deriving DecidableEq

/-- Python truthiness of a cell value, for `bool(row[3])` / `bool(row[5])`. -/
def pyTruthy : SqlVal → Bool
  | .intV i => i != 0
  | .textV s => !s.isEmpty
  | .nullV => false

/-- Parses one PRAGMA `table_info` row; `none` models the `IndexError` a short
row raises (caught by the enclosing handler, which returns `[]`). -/
def parseColumnRow (row : List SqlVal) : Option ColumnInfo :=
  match row.get? 1, row.get? 2, row.get? 3, row.get? 4, row.get? 5 with
  | some n, some t, some nn, some dv, some pk =>
    some { name := n, type := t, notnull := pyTruthy nn,
           dflt_value := dv, pk := pyTruthy pk }
  | _, _, _, _, _ => none

/-- The fallback branch of `get_all_columns`
(src/sqlite_opus/database.py:213-240), taken when the parameterized
`pragma_table_info(?)` form raised `OperationalError`: validate the
identifier, and only on success interpolate it into a raw `PRAGMA` statement.
The first component records every statement actually executed on this path,
so "no query executed" is observable. -/
def get_all_columns_fallback {Db : Type} (exec : Engine Db) (conn : Option Db)
    (table_name : List Char) : List (List Char) × List ColumnInfo :=
  match conn with
  | none => ([], [])
  | some db =>
    match _safe_table_identifier table_name with
    | none => ([], [])
    | some s =>
      let q := chars "PRAGMA table_info(\x22" ++ s ++ chars "\x22)"
      match exec db q with
      | .error _ => ([q], [])
      | .ok (_, cur) =>
        match cur.rows.mapM parseColumnRow with
        | none => ([q], [])
        | some cols => ([q], cols)

/-- A toy conforming engine for write statements: the database is a row
count, each execution adds one row and reports one modified row. -/
def insEngine : Engine Int := fun n _ => .ok (n + 1, ⟨[], [], 1⟩)

/-- A toy conforming engine for `SELECT 1`: one row, one column, and —
as the sqlite3 documentation specifies for SELECT — `rowcount = -1`. -/
def selectOneEngine : Engine Unit := fun _ _ => .ok ((), ⟨[[.intV 1]], [chars "1"], -1⟩)

/-- A toy conforming engine answering every query with a single one-cell row
holding `tc` (the shape of a `COUNT(*)` result); `rowcount = -1` as for any
SELECT. -/
def countEngine (tc : Int) : Engine Unit :=
  fun _ _ => .ok ((), ⟨[[.intV tc]], [chars "COUNT(*)"], -1⟩)

theorem dropWhile_append_of_all {p : Char → Bool} {xs ys : List Char}
    (h : xs.all p = true) : (xs ++ ys).dropWhile p = ys.dropWhile p := by
  induction xs with
  | nil => rfl
  | cons x xs ih =>
    simp only [List.all_cons, Bool.and_eq_true] at h
    simp [List.dropWhile_cons, h.1, ih h.2]

theorem takeWhile_append_of_all {p : Char → Bool} {xs ys : List Char}
    (h : xs.all p = true) : (xs ++ ys).takeWhile p = xs ++ ys.takeWhile p := by
  induction xs with
  | nil => rfl
  | cons x xs ih =>
    simp only [List.all_cons, Bool.and_eq_true] at h
    simp [List.takeWhile_cons, h.1, ih h.2]

theorem dropWhile_idem (p : Char → Bool) (l : List Char) :
    (l.dropWhile p).dropWhile p = l.dropWhile p := by
  induction l with
  | nil => rfl
  | cons x xs ih =>
    by_cases hp : p x = true
    · simp [List.dropWhile_cons, hp, ih]
    · simp only [Bool.not_eq_true] at hp
      simp [List.dropWhile_cons, hp]

theorem isPySpace_cases {c : Char} (h : isPySpace c = true) :
    c = ' ' ∨ c = '\t' ∨ c = '\n' ∨ c = '\r' ∨ c = '\x0b' ∨ c = '\x0c' := by
  simp only [isPySpace, Bool.or_eq_true, beq_iff_eq] at h
  tauto

theorem not_space_of_digit {c : Char} (h : isAsciiDigit c = true) :
    isPySpace c = false := by
  cases hc : isPySpace c with
  | false => rfl
  | true =>
    rcases isPySpace_cases hc with h' | h' | h' | h' | h' | h' <;> subst h' <;>
      exact absurd h (by decide)

theorem not_digit_of_space {c : Char} (h : isPySpace c = true) :
    isAsciiDigit c = false := by
  rcases isPySpace_cases h with h' | h' | h' | h' | h' | h' <;> subst h' <;> decide

theorem upper_of_space {c : Char} (h : isPySpace c = true) : toUpperChar c = c := by
  rcases isPySpace_cases h with h' | h' | h' | h' | h' | h' <;> subst h' <;> decide

theorem not_space_of_upper {c u : Char} (hu : toUpperChar c = u)
    (h : isPySpace u = false) : isPySpace c = false := by
  cases hc : isPySpace c with
  | false => rfl
  | true =>
    rw [upper_of_space hc] at hu
    rw [hu] at hc
    rw [hc] at h
    exact absurd h (by simp)

theorem upperList_reverse (l : List Char) :
    upperList l.reverse = (upperList l).reverse := by
  simp [upperList, List.map_reverse]

/-- C3 (counterexample): with `auth_user` configured and `auth_password`
unset, the claim says the gate is bypassed and every request reaches the
page; the code instead answers a credential-less request with the 401
challenge (`basic_auth_gate … = false`). -/
theorem C3_counterexample :
    basic_auth_gate (some (chars "admin")) none none = false := by decide

/-- C3 (amended): the gate is bypassed only when *both* configured
credentials are unset or empty; otherwise a request reaches the page exactly
when it presents credentials matching the configured pair (an unset side
compares as the empty string), and every other request receives the 401
challenge. -/
theorem C3_auth_gate_amended (au ap : Option (List Char))
    (req : Option (List Char × List Char)) :
    basic_auth_gate au ap req = true ↔
      ((orEmpty au = [] ∧ orEmpty ap = []) ∨
       (∃ u p, req = some (u, p) ∧ u = orEmpty au ∧ p = orEmpty ap)) := by
  rcases req with _ | ⟨u, p⟩ <;>
    by_cases h1 : orEmpty au = [] <;>
      by_cases h2 : orEmpty ap = [] <;>
        simp [basic_auth_gate, h1, h2]

/-- C6: `contains_dml` flags a query as a write exactly when one of the
eight keyword-boundary DML/DDL patterns matches anywhere in the upper-cased
stripped text; in particular the four classifier examples of the spec
evaluate as stated (including the conservative flagging of a SELECT whose
comment embeds `DROP`). -/
theorem C6_classifier :
    (∀ q, contains_dml q = true ↔
        ∃ p ∈ dmlPatterns, searchDml p.1 p.2 none (upperList (pyStrip q)) = true) ∧
    contains_dml (chars "select * from t") = false ∧
    contains_dml (chars "INSERT INTO t VALUES (1)") = true ∧
    contains_dml (chars "  update t set x=1") = true ∧
    contains_dml (chars "select * from t -- DROP TABLE x") = true := by
  refine ⟨fun q => ?_, by decide, by decide, by decide, by decide⟩
  rw [contains_dml, List.any_eq_true]

/-- C7: `connect` on a path that does not exist returns `false` and leaves
the manager state (recorded path and handle) exactly as it was. -/
theorem C7_connect_nonexistent {Db : Type} (fsExists : List Char → Bool)
    (openDb : List Char → Option Db) (st : ManagerState Db) (p : List Char)
    (h : fsExists p = false) :
    connect fsExists openDb st p = (false, st) := by
  simp [connect, h]

/-- C7 witness: a concrete failed connect leaves a concrete prior state
untouched. -/
theorem C7_connect_nonexistent_witness :
    @connect Unit (fun _ => false) (fun _ => none)
        { current_db_path := some (chars "/old.db"), connection := some () }
        (chars "/nope.db") =
      (false, { current_db_path := some (chars "/old.db"), connection := some () }) :=
  C7_connect_nonexistent (fun _ => false) (fun _ => none)
    { current_db_path := some (chars "/old.db"), connection := some () }
    (chars "/nope.db") rfl

/-- C10: a query whose stripped upper-cased text does not begin with
`SELECT` is executed, committed, and reported with empty `results` and
`columns`, whatever rows the cursor actually produced. -/
theorem C10_nonselect_discards_rows {Db : Type} (exec : Engine Db)
    (db db2 : Db) (q : List Char) (cur : CursorRes)
    (hsel : isSelectText q = false) (hex : exec db q = .ok (db2, cur)) :
    execute_query exec (some db) q =
      (some db2,
       { success := true, error := none, results := [], columns := [],
         rowcount := some cur.rowcount, pagination := none }) := by
  simp [execute_query, hex, hsel]

/-- C10 witness: a statement not beginning with SELECT whose cursor produced
a row is reported with empty `results`. -/
theorem C10_nonselect_discards_rows_witness :
    isSelectText (chars "PRAGMA table_list") = false ∧
    (execute_query selectOneEngine (some ()) (chars "PRAGMA table_list")).2.results = [] := by
  refine ⟨by decide, ?_⟩
  rw [C10_nonselect_discards_rows selectOneEngine () () (chars "PRAGMA table_list")
    ⟨[[.intV 1]], [chars "1"], -1⟩ (by decide) rfl]

/-- C5: while `allow_dml` is false, a query flagged by the classifier is
answered with the fixed denial envelope and the connection state is returned
untouched — no engine call happens; with `allow_dml` true the same (non-
SELECT) statement is handed to direct execution, so its effect on the
database is whatever the engine commits. -/
theorem C5_write_gate {Db : Type} (exec : Engine Db) (mr dpp : Int) (db : Db)
    (q : List Char) (page per_page : Option Int) :
    (contains_dml q = true →
      get_query_result exec false mr dpp (some db) q page per_page =
        (some db, envFail dmlDenialMsg)) ∧
    (q ≠ [] → isSelectText q = false →
      get_query_result exec true mr dpp (some db) q page per_page =
        execute_query exec (some db) q) := by
  constructor
  · intro h
    have hq : q ≠ [] := by
      intro hq
      rw [hq] at h
      exact absurd h (by decide)
    simp [get_query_result, hq, h]
  · intro hq hsel
    have happ : apply_default_limit q mr = q := by
      simp [apply_default_limit, hsel]
    rcases page with _ | p
    · simp [get_query_result, hq, happ]
    · simp [get_query_result, hq, hsel, happ]

/-- C5 witness: with `allow_dml` false a concrete INSERT is denied and the
toy database still has 0 rows; with `allow_dml` true the same INSERT runs
and the database has 1 row. -/
theorem C5_write_gate_witness :
    get_query_result insEngine false 1000 50 (some 0)
        (chars "INSERT INTO t VALUES (1)") none none = (some 0, envFail dmlDenialMsg) ∧
    get_query_result insEngine true 1000 50 (some 0)
        (chars "INSERT INTO t VALUES (1)") none none =
      (some 1,
       { success := true, error := none, results := [], columns := [],
         rowcount := some 1, pagination := none }) := by
  constructor
  · exact (C5_write_gate insEngine 1000 50 0
      (chars "INSERT INTO t VALUES (1)") none none).1 (by decide)
  · rw [(C5_write_gate insEngine 1000 50 0
      (chars "INSERT INTO t VALUES (1)") none none).2 (by decide) (by decide)]
    decide

theorem execute_query_pagination_none {Db : Type} (exec : Engine Db)
    (conn : Option Db) (q : List Char) :
    (execute_query exec conn q).2.pagination = none := by
  rcases conn with _ | db
  · rfl
  · rcases h : exec db q with e | ⟨db2, cur⟩ <;> by_cases hs : isSelectText q <;>
      simp [execute_query, h, hs, envFail]

/-- C4 (counterexample): on the direct path a successful `SELECT 1` against a
sqlite3-conforming engine (cursor `rowcount = -1` for SELECT) returns one row
but `rowcount = -1`, so the envelope's rowcount does not reflect the
returned-row count. -/
theorem C4_counterexample :
    (execute_query selectOneEngine (some ()) (chars "SELECT 1")).2.success = true ∧
    (execute_query selectOneEngine (some ()) (chars "SELECT 1")).2.results.length = 1 ∧
    (execute_query selectOneEngine (some ()) (chars "SELECT 1")).2.rowcount = some (-1) ∧
    (execute_query selectOneEngine (some ()) (chars "SELECT 1")).2.rowcount ≠
      some (Int.ofNat
        (execute_query selectOneEngine (some ()) (chars "SELECT 1")).2.results.length) := by
  decide

/-- C4 (amended): on the direct path `execute_query` reports the underlying
cursor's `rowcount` unchanged (the affected-row count for row-modifying
writes, `-1` for SELECT per the DB-API); only the paginated path reports the
returned-row count, where every envelope carrying pagination metadata has
`rowcount` equal to the number of returned rows. -/
theorem C4_rowcount_amended {Db : Type} (exec : Engine Db) :
    (∀ (db db2 : Db) (q : List Char) (cur : CursorRes),
       exec db q = .ok (db2, cur) →
       (execute_query exec (some db) q).2.rowcount = some cur.rowcount) ∧
    (∀ (conn : Option Db) (q : List Char) (page pp mr : Int) (m : PageMeta),
       (execute_query_paginated exec conn q page pp mr).2.pagination = some m →
       (execute_query_paginated exec conn q page pp mr).2.rowcount =
         some (Int.ofNat
           (execute_query_paginated exec conn q page pp mr).2.results.length)) := by
  constructor
  · intro db db2 q cur hex
    by_cases hs : isSelectText q = true <;> simp [execute_query, hex, hs]
  · intro conn q page pp mr m h
    rcases conn with _ | db
    · simp [execute_query_paginated, envFail] at h
    · rw [execute_query_paginated] at h ⊢
      by_cases hsel : pyStartsWith (chars "SELECT")
          (upperList (pyStrip (pyRStripSemis (pyStrip q)))) = true
      · rw [if_neg (by simp [hsel])] at h ⊢
        split at h
        · simp [envFail] at h
        · split at h
          · simp [envFail] at h
          · split at h
            · simp [envFail] at h
            · simp [envFail] at h
            · simp [envFail] at h
            · split at h
              · simp [envFail] at h
              · simp
      · rw [if_pos (by simp [Bool.not_eq_true']; exact Bool.not_eq_true _ ▸ hsel)] at h ⊢
        rw [execute_query_pagination_none] at h
        exact absurd h (by simp)

/-- C4 witness: a concrete SELECT on the direct path passes the cursor's
`-1` through, and a concrete paginated SELECT reports the returned-row
count. -/
theorem C4_rowcount_amended_witness :
    (execute_query selectOneEngine (some ()) (chars "SELECT 1")).2.rowcount = some (-1) ∧
    (execute_query_paginated (countEngine 5) (some ()) (chars "SELECT 1") 1 50 1000).2.rowcount =
      some (Int.ofNat
        (execute_query_paginated (countEngine 5) (some ()) (chars "SELECT 1") 1 50 1000).2.results.length) := by
  constructor
  · simpa using (C4_rowcount_amended selectOneEngine).1 () () (chars "SELECT 1")
      ⟨[[.intV 1]], [chars "1"], -1⟩ rfl
  · exact (C4_rowcount_amended (countEngine 5)).2 (some ()) (chars "SELECT 1") 1 50 1000
      (pageMetaOf 1 50 1000 5) (by decide)

theorem pyIsAlnum_filter (s : List Char) :
    pyIsAlnum (s.filter (fun c => c != '_')) = true ↔
      (s.all isAlnumUnderscore = true ∧ s.any isAsciiAlnumChar = true) := by
  simp only [pyIsAlnum, Bool.and_eq_true, Bool.not_eq_true', List.isEmpty_eq_false_iff_exists_mem,
    List.all_eq_true, List.any_eq_true, List.mem_filter, bne_iff_ne, isAlnumUnderscore,
    Bool.or_eq_true, beq_iff_eq]
  constructor
  · rintro ⟨⟨c, hc, hcne⟩, hall⟩
    refine ⟨fun x hx => ?_, c, hc, hall c ⟨hc, hcne⟩⟩
    by_cases hx_ : x = '_'
    · exact Or.inr hx_
    · exact Or.inl (hall x ⟨hx, hx_⟩)
  · rintro ⟨hall, c, hc, hcal⟩
    have hcne : c ≠ '_' := by
      intro h0
      rw [h0] at hcal
      exact absurd hcal (by decide)
    refine ⟨⟨c, hc, hcne⟩, fun x hx => ?_⟩
    rcases hall x hx.1 with h | h
    · exact h
    · exact absurd h hx.2

/-- C9 (counterexample): the identifier `" users "` contains a character
outside the alphanumeric/underscore allow-list (a space), yet it is not
rejected: the source strips it and executes the interpolated PRAGMA query on
the fallback path. -/
theorem C9_counterexample :
    (' ' ∈ chars " users ") ∧ isAlnumUnderscore ' ' = false ∧
    _safe_table_identifier (chars " users ") = some (chars "users") ∧
    (get_all_columns_fallback (countEngine 0) (some ()) (chars " users ")).1 ≠ [] := by
  decide

/-- C9 (amended): the identifier is first trimmed of surrounding whitespace;
the *trimmed* identifier is accepted iff it is nonempty, consists only of
alphanumerics and underscores, and contains at least one alphanumeric.  Every
other input is rejected, and the fallback path then returns an empty result
without executing any query. -/
theorem C9_identifier_amended (name : List Char) :
    (pyStrip name ≠ [] ∧ (pyStrip name).all isAlnumUnderscore = true ∧
        (pyStrip name).any isAsciiAlnumChar = true →
      _safe_table_identifier name = some (pyStrip name)) ∧
    (¬(pyStrip name ≠ [] ∧ (pyStrip name).all isAlnumUnderscore = true ∧
        (pyStrip name).any isAsciiAlnumChar = true) →
      _safe_table_identifier name = none ∧
      ∀ (Db : Type) (exec : Engine Db) (conn : Option Db),
        get_all_columns_fallback exec conn name = ([], [])) := by
  constructor
  · rintro ⟨h1, h2, h3⟩
    have hn : name ≠ [] := by
      intro h0
      rw [h0] at h1
      exact h1 rfl
    have hpy : pyIsAlnum ((pyStrip name).filter (fun c => c != '_')) = true :=
      (pyIsAlnum_filter _).mpr ⟨h2, h3⟩
    simp [_safe_table_identifier, hn, h1, hpy]
  · intro h
    have hsafe : _safe_table_identifier name = none := by
      by_cases hstrip : pyStrip name = []
      · simp [_safe_table_identifier, hstrip]
      · by_cases hn : name = []
        · simp [_safe_table_identifier, hn]
        · have h23 : ¬((pyStrip name).all isAlnumUnderscore = true ∧
              (pyStrip name).any isAsciiAlnumChar = true) := by tauto
          have hpy : pyIsAlnum ((pyStrip name).filter (fun c => c != '_')) = false := by
            cases hb : pyIsAlnum ((pyStrip name).filter (fun c => c != '_')) with
            | false => rfl
            | true => exact absurd ((pyIsAlnum_filter _).mp hb) h23
          simp [_safe_table_identifier, hn, hstrip, hpy]
    refine ⟨hsafe, fun Db exec conn => ?_⟩
    rcases conn with _ | db
    · rfl
    · simp [get_all_columns_fallback, hsafe]

/-- C9 witness: a clean identifier is accepted; an identifier with an inner
space is rejected and the fallback executes nothing. -/
theorem C9_identifier_amended_witness :
    _safe_table_identifier (chars "users") = some (pyStrip (chars "users")) ∧
    _safe_table_identifier (chars "a b") = none ∧
    get_all_columns_fallback (countEngine 0) (some ()) (chars "a b") = ([], []) := by
  refine ⟨(C9_identifier_amended (chars "users")).1 ⟨by decide, by decide, by decide⟩, ?_, ?_⟩
  · exact ((C9_identifier_amended (chars "a b")).2 (by decide)).1
  · exact ((C9_identifier_amended (chars "a b")).2 (by decide)).2 Unit (countEngine 0) (some ())

/-- C8 (counterexample): `select * from limits` has no standalone `LIMIT`
token, so the claim requires the default limit to be appended; the source
tests substring containment, finds `LIMIT` inside `limits`, and executes the
query unmodified. -/
theorem C8_counterexample :
    isSelectText (chars "select * from limits") = true ∧
    hasLimitToken (chars "select * from limits") = false ∧
    apply_default_limit (chars "select * from limits") 1000 = chars "select * from limits" ∧
    chars "select * from limits" ≠
      pyRStripSemis (chars "select * from limits") ++ chars " LIMIT " ++
        chars (toString (1000 : Int)) := by
  decide

/-- C8 (amended): on the non-paginated path a classified-READ query with no
case-insensitive `LIMIT` *substring* anywhere in its text has
`LIMIT max_results` appended after `rstrip(";")`; if the substring occurs
anywhere the query is passed through unmodified; and the non-paginated branch
of `get_query_result` executes exactly the rewritten query. -/
theorem C8_default_limit_amended :
    (∀ (q : List Char) (mr : Int), isSelectText q = true →
       containsSub (chars "LIMIT") (upperList q) = false →
       apply_default_limit q mr =
         pyRStripSemis q ++ chars " LIMIT " ++ chars (toString mr)) ∧
    (∀ (q : List Char) (mr : Int),
       containsSub (chars "LIMIT") (upperList q) = true →
       apply_default_limit q mr = q) ∧
    (∀ (Db : Type) (exec : Engine Db) (allow : Bool) (mr dpp : Int) (db : Db)
       (q : List Char) (per_page : Option Int), q ≠ [] →
       (contains_dml q && !allow) = false →
       get_query_result exec allow mr dpp (some db) q none per_page =
         execute_query exec (some db) (apply_default_limit q mr)) := by
  refine ⟨fun q mr h1 h2 => ?_, fun q mr h => ?_, fun Db exec allow mr dpp db q pp hq hdml => ?_⟩
  · simp [apply_default_limit, h1, h2]
  · simp [apply_default_limit, h]
  · simp [get_query_result, hq, hdml]

/-- C8 witness: a SELECT without the substring gets the cap appended, one
with the substring is untouched, and the non-paginated branch executes the
rewritten text. -/
theorem C8_default_limit_amended_witness :
    apply_default_limit (chars "select 2") 1000 =
      pyRStripSemis (chars "select 2") ++ chars " LIMIT " ++ chars (toString (1000 : Int)) ∧
    apply_default_limit (chars "select * from limits") 1000 = chars "select * from limits" ∧
    get_query_result (countEngine 0) false 1000 50 (some ()) (chars "select 2") none none =
      execute_query (countEngine 0) (some ()) (apply_default_limit (chars "select 2") 1000) := by
  refine ⟨?_, ?_, ?_⟩
  · exact C8_default_limit_amended.1 (chars "select 2") 1000 (by decide) (by decide)
  · exact C8_default_limit_amended.2.1 (chars "select * from limits") 1000 (by decide)
  · exact C8_default_limit_amended.2.2 Unit (countEngine 0) false 1000 50 ()
      (chars "select 2") none (by decide) (by decide)

theorem fdiv_eq_ceil (a b : Int) (hb : 0 < b) :
    Int.fdiv (a + b - 1) b = ⌈(a : ℚ) / (b : ℚ)⌉ := by
  rw [Int.fdiv_eq_ediv _ (le_of_lt hb)]
  have hkey := Int.ediv_add_emod (a + b - 1) b
  have hmodnn : 0 ≤ (a + b - 1) % b := Int.emod_nonneg _ (by omega)
  have hmodlt : (a + b - 1) % b < b := Int.emod_lt_of_pos _ hb
  have hq : (0 : ℚ) < (b : ℚ) := by exact_mod_cast hb
  have h1 : a ≤ b * ((a + b - 1) / b) := by linarith
  have h2 : b * ((a + b - 1) / b) - b < a := by linarith
  have h1q : (a : ℚ) ≤ (b : ℚ) * (((a + b - 1) / b : Int) : ℚ) := by exact_mod_cast h1
  have h2q : (b : ℚ) * (((a + b - 1) / b : Int) : ℚ) - (b : ℚ) < (a : ℚ) := by
    exact_mod_cast h2
  symm
  rw [Int.ceil_eq_iff]
  constructor
  · rw [lt_div_iff₀ hq]
    nlinarith [h2q]
  · rw [div_le_iff₀ hq]
    nlinarith [h1q]

/-- C1: on the paginated path with a connected database and a SELECT query,
the returned metadata has `page = max(1, caller page)`, `per_page` equal to
the caller value clamped to `[1, max_results]`, `total_count` the COUNT
result, and `total_pages = ⌈total_count / per_page⌉` for a positive count and
`0` for a zero count; an invalid raw `page` or `per_page` is never echoed
back. -/
theorem C1_pagination_metadata {Db : Type} (exec : Engine Db) (db db1 db2 : Db)
    (query : List Char) (page per_page max_results : Int)
    (cur1 cur2 : CursorRes) (row : List SqlVal) (tc : Int)
    (hsel : pyStartsWith (chars "SELECT")
      (upperList (pyStrip (pyRStripSemis (pyStrip query)))) = true)
    (hcount : exec db (countQueryOf
      (_strip_limit_offset (pyStrip (pyRStripSemis (pyStrip query))))) = .ok (db1, cur1))
    (hrow : cur1.rows.head? = some row)
    (hval : row.head? = some (.intV tc))
    (hmr : 1 ≤ max_results)
    (hdata : exec db1 (dataQueryOf
        (_strip_limit_offset (pyStrip (pyRStripSemis (pyStrip query))))
        (max 1 (min per_page max_results))
        ((max 1 page - 1) * max 1 (min per_page max_results))) = .ok (db2, cur2)) :
    ∃ m : PageMeta,
      (execute_query_paginated exec (some db) query page per_page max_results).2.pagination = some m ∧
      m.page = max 1 page ∧
      m.per_page = max 1 (min per_page max_results) ∧
      1 ≤ m.per_page ∧ m.per_page ≤ max_results ∧
      m.total_count = tc ∧
      (tc = 0 → m.total_pages = 0) ∧
      (0 < tc → m.total_pages = ⌈(tc : ℚ) / (m.per_page : ℚ)⌉) ∧
      (page < 1 → m.page ≠ page) ∧
      (per_page < 1 ∨ max_results < per_page → m.per_page ≠ per_page) := by
  have hpp1 : (1 : Int) ≤ max 1 (min per_page max_results) := le_max_left _ _
  have hpp2 : max 1 (min per_page max_results) ≤ max_results :=
    max_le hmr (min_le_right _ _)
  refine ⟨pageMetaOf page per_page max_results tc, ?_, rfl, rfl, hpp1, hpp2, rfl, ?_, ?_, ?_, ?_⟩
  · rw [execute_query_paginated, if_neg (by simp [hsel])]
    simp only [hcount, hrow, hval, hdata]
  · intro h
    simp [pageMetaOf, h]
  · intro h
    show (if tc > 0 then
        Int.fdiv (tc + max 1 (min per_page max_results) - 1)
          (max 1 (min per_page max_results)) else 0) = _
    rw [if_pos h]
    exact fdiv_eq_ceil tc _ (lt_of_lt_of_le one_pos hpp1)
  · intro h
    show max 1 page ≠ page
    rw [max_eq_left (by omega : page ≤ 1)]
    omega
  · intro h
    show max 1 (min per_page max_results) ≠ per_page
    intro heq
    rw [heq] at hpp1 hpp2
    rcases h with h | h <;> omega

/-- C1 witness: concrete paginated runs with `total_count` 101, 1 and 0 at
`per_page = 50` produce `total_pages` 3, 1 and 0 with the clamped
metadata. -/
theorem C1_pagination_metadata_witness :
    (∃ m : PageMeta,
      (execute_query_paginated (countEngine 101) (some ()) (chars "SELECT * FROM t")
        1 50 10000).2.pagination = some m ∧
      m.page = 1 ∧ m.per_page = 50 ∧ m.total_count = 101 ∧ m.total_pages = 3) ∧
    (∃ m : PageMeta,
      (execute_query_paginated (countEngine 1) (some ()) (chars "SELECT * FROM t")
        1 50 10000).2.pagination = some m ∧ m.total_pages = 1) ∧
    (∃ m : PageMeta,
      (execute_query_paginated (countEngine 0) (some ()) (chars "SELECT * FROM t")
        1 50 10000).2.pagination = some m ∧ m.total_pages = 0) := by
  refine ⟨?_, ?_, ?_⟩
  · obtain ⟨m, hm, hpage, hpp, _, _, htc, _, hc, _, _⟩ :=
      C1_pagination_metadata (countEngine 101) () () () (chars "SELECT * FROM t")
        1 50 10000 ⟨[[.intV 101]], [chars "COUNT(*)"], -1⟩
        ⟨[[.intV 101]], [chars "COUNT(*)"], -1⟩ [.intV 101] 101
        (by decide) rfl rfl rfl (by norm_num) rfl
    refine ⟨m, hm, ?_, ?_, htc, ?_⟩
    · rw [hpage]; norm_num
    · rw [hpp]; norm_num
    · rw [hc (by norm_num), hpp]
      rw [Int.ceil_eq_iff]
      norm_num
  · obtain ⟨m, hm, _, hpp, _, _, _, _, hc, _, _⟩ :=
      C1_pagination_metadata (countEngine 1) () () () (chars "SELECT * FROM t")
        1 50 10000 ⟨[[.intV 1]], [chars "COUNT(*)"], -1⟩
        ⟨[[.intV 1]], [chars "COUNT(*)"], -1⟩ [.intV 1] 1
        (by decide) rfl rfl rfl (by norm_num) rfl
    refine ⟨m, hm, ?_⟩
    rw [hc (by norm_num), hpp]
    rw [Int.ceil_eq_iff]
    norm_num
  · obtain ⟨m, hm, _, _, _, _, _, hz, _, _, _⟩ :=
      C1_pagination_metadata (countEngine 0) () () () (chars "SELECT * FROM t")
        1 50 10000 ⟨[[.intV 0]], [chars "COUNT(*)"], -1⟩
        ⟨[[.intV 0]], [chars "COUNT(*)"], -1⟩ [.intV 0] 0
        (by decide) rfl rfl rfl (by norm_num) rfl
    exact ⟨m, hm, hz rfl⟩

theorem rev_head_of_all {p : Char → Bool} {l : List Char} (hne : l ≠ [])
    (hall : l.all p = true) : ∃ d tl, l.reverse = d :: tl ∧ p d = true := by
  obtain ⟨d, tl, h⟩ := List.exists_cons_of_ne_nil (mt List.reverse_eq_nil_iff.mp hne)
  refine ⟨d, tl, h, List.all_eq_true.mp hall d (List.mem_reverse.mp ?_)⟩
  rw [h]
  exact List.mem_cons_self d tl

theorem ne_nil_of_not_isEmpty {l : List Char} (h : ¬l.isEmpty = true) : l ≠ [] := by
  intro h0
  rw [h0] at h
  exact h rfl

theorem stripOne_sound {q r : List Char} (h : stripOneTrailingClause q = some r) :
    TrailingClause q r := by
  rw [stripOneTrailingClause, stripDigitsPart] at h
  split_ifs at h with h1
  rw [stripSpacePart] at h
  split_ifs at h with h2
  rw [stripKeywordPart] at h
  split_ifs at h with h3 h4
  · -- LIMIT branch
    rw [stripAfterKeyword] at h
    split_ifs at h with h5
    have hr := Option.some.inj h
    refine ⟨(((((q.reverse.dropWhile isPySpace).dropWhile isAsciiDigit).dropWhile isPySpace).drop 5).dropWhile isPySpace).reverse,
      (((((q.reverse.dropWhile isPySpace).dropWhile isAsciiDigit).dropWhile isPySpace).drop 5).takeWhile isPySpace).reverse,
      ((((q.reverse.dropWhile isPySpace).dropWhile isAsciiDigit).dropWhile isPySpace).take 5).reverse,
      (((q.reverse.dropWhile isPySpace).dropWhile isAsciiDigit).takeWhile isPySpace).reverse,
      ((q.reverse.dropWhile isPySpace).takeWhile isAsciiDigit).reverse,
      (q.reverse.takeWhile isPySpace).reverse,
      ?_, ?_, ?_, ?_, ?_, ?_, ?_, ?_, ?_, ?_⟩
    · apply List.reverse_injective
      simp
    · simp [ne_nil_of_not_isEmpty h5]
    · rw [List.all_reverse]
      exact List.all_takeWhile
    · left
      rw [upperList_reverse, h3, List.reverse_reverse]
    · simp [ne_nil_of_not_isEmpty h2]
    · rw [List.all_reverse]
      exact List.all_takeWhile
    · simp [ne_nil_of_not_isEmpty h1]
    · rw [List.all_reverse]
      exact List.all_takeWhile
    · rw [List.all_reverse]
      exact List.all_takeWhile
    · rw [← hr, pyRStrip, List.reverse_reverse, dropWhile_idem]
  · -- OFFSET branch
    rw [stripAfterKeyword] at h
    split_ifs at h with h5
    have hr := Option.some.inj h
    refine ⟨(((((q.reverse.dropWhile isPySpace).dropWhile isAsciiDigit).dropWhile isPySpace).drop 6).dropWhile isPySpace).reverse,
      (((((q.reverse.dropWhile isPySpace).dropWhile isAsciiDigit).dropWhile isPySpace).drop 6).takeWhile isPySpace).reverse,
      ((((q.reverse.dropWhile isPySpace).dropWhile isAsciiDigit).dropWhile isPySpace).take 6).reverse,
      (((q.reverse.dropWhile isPySpace).dropWhile isAsciiDigit).takeWhile isPySpace).reverse,
      ((q.reverse.dropWhile isPySpace).takeWhile isAsciiDigit).reverse,
      (q.reverse.takeWhile isPySpace).reverse,
      ?_, ?_, ?_, ?_, ?_, ?_, ?_, ?_, ?_, ?_⟩
    · apply List.reverse_injective
      simp
    · simp [ne_nil_of_not_isEmpty h5]
    · rw [List.all_reverse]
      exact List.all_takeWhile
    · right
      rw [upperList_reverse, h4, List.reverse_reverse]
    · simp [ne_nil_of_not_isEmpty h2]
    · rw [List.all_reverse]
      exact List.all_takeWhile
    · simp [ne_nil_of_not_isEmpty h1]
    · rw [List.all_reverse]
      exact List.all_takeWhile
    · rw [List.all_reverse]
      exact List.all_takeWhile
    · rw [← hr, pyRStrip, List.reverse_reverse, dropWhile_idem]

theorem takeWhile_append_stop {p : Char → Bool} {pre : List Char} {d : Char} {tl : List Char}
    (hall : pre.all p = true) (hd : p d = false) :
    (pre ++ (d :: tl)).takeWhile p = pre := by
  rw [takeWhile_append_of_all hall, List.takeWhile_cons, if_neg (by simp [hd])]
  simp

theorem dropWhile_append_stop {p : Char → Bool} {pre : List Char} {d : Char} {tl : List Char}
    (hall : pre.all p = true) (hd : p d = false) :
    (pre ++ (d :: tl)).dropWhile p = d :: tl := by
  rw [dropWhile_append_of_all hall, List.dropWhile_cons, if_neg (by simp [hd])]

theorem kw_last_not_space {kw : List Char}
    (h : upperList kw = chars "LIMIT" ∨ upperList kw = chars "OFFSET") :
    ∃ k tl, kw.reverse = k :: tl ∧ isPySpace k = false := by
  have hrev : upperList kw.reverse = (chars "LIMIT").reverse ∨
      upperList kw.reverse = (chars "OFFSET").reverse := by
    rcases h with h | h
    · exact Or.inl (by rw [upperList_reverse, h])
    · exact Or.inr (by rw [upperList_reverse, h])
  have hne : kw.reverse ≠ [] := by
    intro h0
    rw [h0] at hrev
    rcases hrev with h1 | h1 <;> exact absurd h1 (by decide)
  obtain ⟨k, tl, hk⟩ := List.exists_cons_of_ne_nil hne
  refine ⟨k, tl, hk, ?_⟩
  rw [hk] at hrev
  have hup : toUpperChar k = 'T' := by
    rcases hrev with h1 | h1
    · have h2 := congrArg List.head? h1
      rw [(by decide : ((chars "LIMIT").reverse).head? = some 'T')] at h2
      simpa [upperList] using h2
    · have h2 := congrArg List.head? h1
      rw [(by decide : ((chars "OFFSET").reverse).head? = some 'T')] at h2
      simpa [upperList] using h2
  exact not_space_of_upper hup (by decide)

theorem stripOne_complete {q r : List Char} (h : TrailingClause q r) :
    stripOneTrailingClause q = some r := by
  obtain ⟨a, ws, kw, ws2, ds, ws3, hq, hws, hwsall, hkw, hws2, hws2all, hds, hdsall, hws3all, hr⟩ := h
  obtain ⟨d, dtl, hdsr, hd⟩ := rev_head_of_all hds hdsall
  obtain ⟨w2, w2tl, hws2r, hw2⟩ := rev_head_of_all hws2 hws2all
  obtain ⟨w, wtl, hwsr, hw⟩ := rev_head_of_all hws hwsall
  obtain ⟨k, ktl, hkwr, hk⟩ := kw_last_not_space hkw
  subst hq
  subst hr
  rw [stripOneTrailingClause]
  have e0 : (a ++ ws ++ kw ++ ws2 ++ ds ++ ws3).reverse =
      ws3.reverse ++ (ds.reverse ++ (ws2.reverse ++ (kw.reverse ++ (ws.reverse ++ a.reverse)))) := by
    simp
  rw [e0]
  have e1 : (ws3.reverse ++ (ds.reverse ++ (ws2.reverse ++ (kw.reverse ++ (ws.reverse ++ a.reverse))))).dropWhile isPySpace =
      ds.reverse ++ (ws2.reverse ++ (kw.reverse ++ (ws.reverse ++ a.reverse))) := by
    rw [hdsr, List.cons_append,
      dropWhile_append_stop (by rw [List.all_reverse]; exact hws3all) (not_space_of_digit hd),
      ← List.cons_append, ← hdsr]
  rw [e1, stripDigitsPart]
  have e2 : (ds.reverse ++ (ws2.reverse ++ (kw.reverse ++ (ws.reverse ++ a.reverse)))).takeWhile isAsciiDigit =
      ds.reverse := by
    rw [hws2r, List.cons_append,
      takeWhile_append_stop (by rw [List.all_reverse]; exact hdsall) (not_digit_of_space hw2)]
  have e3 : (ds.reverse ++ (ws2.reverse ++ (kw.reverse ++ (ws.reverse ++ a.reverse)))).dropWhile isAsciiDigit =
      ws2.reverse ++ (kw.reverse ++ (ws.reverse ++ a.reverse)) := by
    rw [hws2r, List.cons_append,
      dropWhile_append_stop (by rw [List.all_reverse]; exact hdsall) (not_digit_of_space hw2),
      ← List.cons_append, ← hws2r]
  rw [if_neg (by rw [e2, hdsr]; simp), e3, stripSpacePart]
  have e4 : (ws2.reverse ++ (kw.reverse ++ (ws.reverse ++ a.reverse))).takeWhile isPySpace =
      ws2.reverse := by
    rw [hkwr, List.cons_append,
      takeWhile_append_stop (by rw [List.all_reverse]; exact hws2all) hk]
  have e5 : (ws2.reverse ++ (kw.reverse ++ (ws.reverse ++ a.reverse))).dropWhile isPySpace =
      kw.reverse ++ (ws.reverse ++ a.reverse) := by
    rw [hkwr, List.cons_append,
      dropWhile_append_stop (by rw [List.all_reverse]; exact hws2all) hk,
      ← List.cons_append, ← hkwr]
  rw [if_neg (by rw [e4, hws2r]; simp), e5, stripKeywordPart]
  have efin : stripAfterKeyword (ws.reverse ++ a.reverse) = some (pyRStrip a) := by
    rw [stripAfterKeyword]
    have ene : (ws.reverse ++ a.reverse).takeWhile isPySpace ≠ [] := by
      rw [hwsr, List.cons_append, List.takeWhile_cons, if_pos (by simp [hw])]
      simp
    rw [if_neg (by simp [List.isEmpty_iff, ene]),
      dropWhile_append_of_all (by rw [List.all_reverse]; exact hwsall)]
    rfl
  rcases hkw with hkwU | hkwU
  · have hlen : kw.reverse.length = 5 := by
      have hl := congrArg List.length hkwU
      simp only [upperList, List.length_map] at hl
      rw [List.length_reverse, hl]
      decide
    rw [if_pos (by rw [List.take_left' hlen, upperList_reverse, hkwU]), List.drop_left' hlen]
    exact efin
  · have hlen : kw.reverse.length = 6 := by
      have hl := congrArg List.length hkwU
      simp only [upperList, List.length_map] at hl
      rw [List.length_reverse, hl]
      decide
    have hnot5 : ¬upperList ((kw.reverse ++ (ws.reverse ++ a.reverse)).take 5) = (chars "LIMIT").reverse := by
      have h5 : (kw.reverse ++ (ws.reverse ++ a.reverse)).take 5 = kw.reverse.take 5 := by
        rw [List.take_append_eq_append_take, hlen]
        simp
      rw [h5]
      have hu5 : upperList (kw.reverse.take 5) = ((chars "OFFSET").reverse).take 5 := by
        show (kw.reverse.take 5).map toUpperChar = _
        rw [List.map_take]
        show (upperList kw.reverse).take 5 = _
        rw [upperList_reverse, hkwU]
      rw [hu5]
      decide
    rw [if_neg hnot5,
      if_pos (by rw [List.take_left' hlen, upperList_reverse, hkwU]), List.drop_left' hlen]
    exact efin

/-- C2 (counterexample): on `"SELECT 1;;"` the source's `rstrip(";")` removes
*both* trailing semicolons, while the claim's "a single trailing semicolon"
would leave one; the two procedures disagree on this input. -/
theorem C2_counterexample :
    _strip_limit_offset (chars "SELECT 1;;") = chars "SELECT 1" ∧
    claimed_strip_limit_offset (chars "SELECT 1;;") = chars "SELECT 1;" ∧
    _strip_limit_offset (chars "SELECT 1;;") ≠
      claimed_strip_limit_offset (chars "SELECT 1;;") := by
  decide

/-- C2 (amended): `_strip_limit_offset` trims surrounding whitespace and
*all* trailing semicolons, then removes at most two trailing
`LIMIT <digits>` / `OFFSET <digits>` clauses — where removing a trailing
clause is characterised declaratively by `TrailingClause` (keyword preceded
by whitespace, digits, only whitespace after, case-insensitive, anchored at
the end) — stopping as soon as no such clause exists; a LIMIT or OFFSET not
at the end admits no `TrailingClause` decomposition and is left untouched.
In particular the spec's round-trip example holds. -/
theorem C2_strip_trailing :
    (∀ q : List Char,
      ((∀ x, ¬ TrailingClause (pyStrip (pyRStripSemis (pyStrip q))) x) ∧
        _strip_limit_offset q = pyStrip (pyRStripSemis (pyStrip q))) ∨
      (∃ q1, TrailingClause (pyStrip (pyRStripSemis (pyStrip q))) q1 ∧
        (((∀ x, ¬ TrailingClause q1 x) ∧ _strip_limit_offset q = q1) ∨
         (∃ q2, TrailingClause q1 q2 ∧ _strip_limit_offset q = q2)))) ∧
    _strip_limit_offset (chars "SELECT * FROM t LIMIT 10 OFFSET 20") =
      chars "SELECT * FROM t" := by
  refine ⟨fun q => ?_, by decide⟩
  rcases h0 : stripOneTrailingClause (pyStrip (pyRStripSemis (pyStrip q))) with _ | q1
  · left
    refine ⟨fun x hx => ?_, ?_⟩
    · exact absurd (stripOne_complete hx) (by rw [h0]; simp)
    · simp only [_strip_limit_offset, h0]
  · right
    refine ⟨q1, stripOne_sound h0, ?_⟩
    rcases h1 : stripOneTrailingClause q1 with _ | q2
    · left
      refine ⟨fun x hx => ?_, ?_⟩
      · exact absurd (stripOne_complete hx) (by rw [h1]; simp)
      · simp only [_strip_limit_offset, h0, h1]
    · right
      exact ⟨q2, stripOne_sound h1, by simp only [_strip_limit_offset, h0, h1]⟩
